import Mathlib

/-!
Verification of the geo-change-risk core against its specification.

Shallow embedding of the repository's core modules:
  * `src/pipeline/georisk/raster/change.py`   (ChangePolygon, `_classify_change`)
  * `src/pipeline/georisk/raster/terrain.py`  (DEM sampling, directional metrics)
  * `src/pipeline/georisk/risk/proximity.py`  (find_nearby_assets)
  * `src/pipeline/georisk/risk/scoring.py`    (RiskScorer)

Python floats are modelled as rationals (the claims under scrutiny concern
threshold logic, ordering and integer clamping, not float rounding).
Python `int(x)` (truncation toward zero) is `pyInt`; Python `%` on floats
(sign of the divisor, i.e. floor-based) is `pyMod`.  Third-party geometry
objects (shapely) are opaque capabilities per the spec: only the attributes
the core reads (`geom_type`, `bounds`) are carried, and metric-frame
distance computation is an oracle parameter.  Transcendental math
(`atan2`/`sqrt` in `_calculate_slope_toward_point`) is likewise abstracted
as an oracle input; no claim touches it.
-/

namespace GeoRisk

/-- Python `int(x)` for a rational: truncation toward zero. -/
def pyInt (q : ℚ) : ℤ := if 0 ≤ q then ⌊q⌋ else -⌊-q⌋

/-- Python `x % m` on floats: remainder with the sign of the divisor. -/
def pyMod (a b : ℚ) : ℚ := a - b * ⌊a / b⌋

/-! ## raster/change.py -/

/-- The declared fields of the `ChangePolygon` dataclass (change.py lines
21-33).  The polygon geometry is an opaque shapely object never read by the
scoring code, so it is not carried here. -/
structure ChangePolygonRec where
  area_sq_meters : ℚ
  ndvi_drop_mean : ℚ
  ndvi_drop_max : ℚ
  change_type : String := "VegetationLoss"
  slope_degree_mean : Option ℚ := none
  slope_degree_max : Option ℚ := none
  aspect_degrees : Option ℚ := none
  elevation_m : Option ℚ := none
deriving DecidableEq

/-- A `ChangePolygon` instance as the scorer sees it.  The dataclass declares
no `land_cover_class` field; cli.py attaches one dynamically during ML
enrichment (`change.land_cover_class = result.dominant_class`).  `none`
models the attribute being absent (reading it raises AttributeError);
`some v` models the attribute being present with value `v` (`some none`
is an explicit null). -/
structure ChangePolygonObj where
  base : ChangePolygonRec
  land_cover_class_attr : Option (Option String)
deriving DecidableEq

/-- The `change_type_map` dictionary inside `ChangePolygon.to_dict`
(change.py lines 38-48), verbatim. -/
def change_type_map : List (String × ℤ) :=
  [("Unknown", 0), ("VegetationLoss", 1), ("VegetationGain", 2),
   ("UrbanExpansion", 3), ("WaterChange", 4), ("FireBurnScar", 5),
   ("LandslideDebris", 6), ("DroughtStress", 7), ("AgriculturalChange", 8)]

/-- `change_type_map.get(self.change_type, 0)`: the `changeType` integer
emitted by `ChangePolygon.to_dict` (change.py line 49). -/
def change_type_int (change_type : String) : ℤ :=
  ((change_type_map.lookup change_type).getD 0)

/-- `_classify_change` (change.py lines 342-351), verbatim.  The function
takes only the mean NDVI drop; it has no land-cover parameter. -/
def classify_change (mean_ndvi_drop : ℚ) : String :=
  if mean_ndvi_drop < -(2/5) then "VegetationLoss"
  else if mean_ndvi_drop < -(1/5) then "VegetationLoss"
  else if mean_ndvi_drop > 1/5 then "VegetationGain"
  else "Unknown"

/-! ## raster/terrain.py -/

/-- A point terrain sample (`TerrainData`). -/
structure TerrainData where
  slope_degrees : ℚ
  aspect_degrees : ℚ
  elevation_m : ℚ
deriving DecidableEq

/-- Directional terrain relationship (`DirectionalTerrainMetrics`). -/
structure DirectionalTerrainMetrics where
  change_elevation_m : ℚ
  asset_elevation_m : ℚ
  elevation_diff_m : ℚ
  is_upslope : Bool
  slope_toward_asset_deg : ℚ
deriving DecidableEq

/-- A WGS84 point. -/
structure Pt where
  x : ℚ
  y : ℚ
deriving DecidableEq

/-- A gridded DataArray: coordinate vectors plus cell values.  A cell value
of `none` models a NaN (missing-data) cell. -/
structure DEMGrid where
  xs : List ℚ
  ys : List ℚ
  val : ℕ → ℕ → Option ℚ

/-- `DEMData`: elevation grid with optional derived slope/aspect grids
(sharing the elevation grid's coordinates).  The CRS is taken to be WGS84,
so the coordinate transform at the top of `sample_terrain_at_point` is the
identity. -/
structure DEMData where
  elevation : DEMGrid
  slope : Option DEMGrid := none
  aspect : Option DEMGrid := none
  resolution_m : ℚ := 10

/-- Nearest entry of an enumerated coordinate list (earliest wins on ties). -/
def nearest_aux (v : ℚ) : List (ℕ × ℚ) → Option (ℕ × ℚ)
  | [] => none
  | p :: rest =>
    match nearest_aux v rest with
    | none => some p
    | some q => if |p.2 - v| ≤ |q.2 - v| then some p else some q

/-- xarray `.sel(coord, method="nearest")` with no tolerance: it selects the
index whose coordinate is closest to the requested value.  For a non-empty
coordinate vector this never fails — a point beyond the grid edge simply
clamps to the nearest edge cell; only an empty index raises (→ `none`). -/
def nearest_index (coords : List ℚ) (v : ℚ) : Option ℕ :=
  (nearest_aux v coords.enum).map (·.1)

/-- `sample_terrain_at_point` (terrain.py lines 304-348): nearest-cell lookup
of elevation (and slope/aspect when present, defaulting to 0.0), returning
`none` only when the selection itself raises or the sampled elevation is
NaN.  NaN slope/aspect samples are coerced to 0.0 (lines 341-342). -/
def sample_terrain_at_point (dem : DEMData) (point : Pt) : Option TerrainData :=
  match nearest_index dem.elevation.xs point.x, nearest_index dem.elevation.ys point.y with
  | some xi, some yi =>
    let elev := dem.elevation.val xi yi
    let slope : Option ℚ := match dem.slope with
      | some g => g.val xi yi
      | none => some 0
    let aspect : Option ℚ := match dem.aspect with
      | some g => g.val xi yi
      | none => some 0
    match elev with
    | none => none
    | some e => some ⟨slope.getD 0, aspect.getD 0, e⟩
  | _, _ => none

/-- `calculate_directional_metrics` (terrain.py lines 437-478).  The
`slope_toward_asset_deg` value is produced by
`_calculate_slope_toward_point` via a UTM projection, `sqrt` and `atan2`
(transcendental); it is abstracted as the oracle argument
`slope_toward_oracle`, which no claim inspects. -/
def calculate_directional_metrics (dem : DEMData) (change_centroid asset_location : Pt)
    (slope_toward_oracle : ℚ) : Option DirectionalTerrainMetrics :=
  match sample_terrain_at_point dem change_centroid,
        sample_terrain_at_point dem asset_location with
  | some change_terrain, some asset_terrain =>
    let elevation_diff := change_terrain.elevation_m - asset_terrain.elevation_m
    some { change_elevation_m := change_terrain.elevation_m
           asset_elevation_m := asset_terrain.elevation_m
           elevation_diff_m := elevation_diff
           is_upslope := decide (elevation_diff > 5)
           slope_toward_asset_deg := slope_toward_oracle }
  | _, _ => none

/-! ## risk/proximity.py -/

/-- Shapely geometry kinds distinguished by the proximity filter. -/
inductive GeomType
  | point
  | lineString
  | multiLineString
  | polygonGeom
  | otherGeom
deriving DecidableEq

/-- Opaque geometry capability: the proximity code reads only `geom_type`
and `bounds` (minx, miny, maxx, maxy); distance is computed through an
oracle standing for the shapely/UTM machinery. -/
structure Geometry where
  geom_type : GeomType
  minx : ℚ
  miny : ℚ
  maxx : ℚ
  maxy : ℚ
deriving DecidableEq

/-- `OVERHEAD_LINE_TYPES` (proximity.py line 16). -/
def OVERHEAD_LINE_TYPES : List String := ["TransmissionLine"]

/-- Python `asset.get('assetTypeName') in OVERHEAD_LINE_TYPES` (a missing key
gives `None`, and `None in {...}` is `False`). -/
def in_overhead_line_types : Option String → Bool
  | some t => decide (t ∈ OVERHEAD_LINE_TYPES)
  | none => false

/-- An asset dictionary from the API: `.get` on a missing key yields `none`. -/
structure AssetRecord where
  assetId : Option String := none
  name : Option String := none
  assetType : Option ℤ := none
  assetTypeName : Option String := none
  criticality : Option ℤ := none
  criticalityName : Option String := none
  geometry : Option Geometry := none
deriving DecidableEq

/-- `ProximityResult` (proximity.py lines 19-35). -/
structure ProximityResult where
  asset_id : String
  asset_name : String
  asset_type : ℤ
  asset_type_name : String
  criticality : ℤ
  criticality_name : String
  distance_meters : ℚ
  asset_geometry : Geometry
  asset_elevation_m : Option ℚ := none
  elevation_diff_m : Option ℚ := none
  is_upslope : Option Bool := none
  slope_toward_asset_deg : Option ℚ := none
deriving DecidableEq

/-- The per-asset body of the loop in `find_nearby_assets` (proximity.py
lines 100-181): skip assets without geometry, skip overhead-line line
geometries, skip geometries outside WGS84 bounds, keep assets within
`max_distance_m`.  `dist` is the metric-frame distance oracle
(`change_projected.distance(asset_projected)`); `metrics` stands for the
DEM-dependent `calculate_directional_metrics` sub-call on the asset's
centroid (absent DEM → `none` for every asset). -/
def process_asset (dist : Geometry → ℚ) (metrics : Geometry → Option DirectionalTerrainMetrics)
    (max_distance_m : ℚ) (asset : AssetRecord) : Option ProximityResult :=
  match asset.geometry with
  | none => none
  | some g =>
    if (g.geom_type = GeomType.lineString ∨ g.geom_type = GeomType.multiLineString) ∧
        in_overhead_line_types asset.assetTypeName = true then
      none
    else if g.minx < -180 ∨ g.maxx > 180 ∨ g.miny < -90 ∨ g.maxy > 90 then
      none
    else
      let distance_m := dist g
      if distance_m ≤ max_distance_m then
        let md := metrics g
        some { asset_id := asset.assetId.getD "unknown"
               asset_name := asset.name.getD "Unknown"
               asset_type := asset.assetType.getD 0
               asset_type_name := asset.assetTypeName.getD "Unknown"
               criticality := asset.criticality.getD 1
               criticality_name := asset.criticalityName.getD "Medium"
               distance_meters := distance_m
               asset_geometry := g
               asset_elevation_m := md.map (·.asset_elevation_m)
               elevation_diff_m := md.map (·.elevation_diff_m)
               is_upslope := md.map (·.is_upslope)
               slope_toward_asset_deg := md.map (·.slope_toward_asset_deg) }
      else none

/-- Ordering used by `results.sort(key=lambda r: r.distance_meters)`. -/
def distLE (a b : ProximityResult) : Prop := a.distance_meters ≤ b.distance_meters

instance : DecidableRel distLE := fun a b =>
  inferInstanceAs (Decidable (a.distance_meters ≤ b.distance_meters))

instance : IsTotal ProximityResult distLE := ⟨fun a b => le_total a.distance_meters b.distance_meters⟩

instance : IsTrans ProximityResult distLE := ⟨fun _ _ _ h1 h2 => le_trans h1 h2⟩

/-- `find_nearby_assets` (proximity.py lines 38-192). -/
def find_nearby_assets (dist : Geometry → ℚ)
    (metrics : Geometry → Option DirectionalTerrainMetrics)
    (assets : List AssetRecord) (max_distance_m : ℚ) : List ProximityResult :=
  if assets.isEmpty then []
  else
    List.insertionSort distLE (assets.filterMap (process_asset dist metrics max_distance_m))

/-! ## risk/scoring.py: configuration -/

/-- A `{value, points, reason_code}` threshold entry (the `value` field is
`distance_m` / `delta` / `area_m2` / `slope_deg` depending on the factor). -/
structure Threshold where
  value : ℚ
  points : ℤ
  reason_code : String
deriving DecidableEq

/-- A per-factor configuration dictionary: the keys the scoring code reads. -/
structure FactorConfig where
  max_points : ℤ
  thresholds : List Threshold
deriving DecidableEq

/-- `DEFAULT_SCORING["distance"]`. -/
def default_distance : FactorConfig :=
  ⟨28, [⟨100, 28, "DISTANCE_LT_100M"⟩, ⟨500, 21, "DISTANCE_LT_500M"⟩,
        ⟨1000, 14, "DISTANCE_LT_1KM"⟩, ⟨2500, 7, "DISTANCE_LT_2.5KM"⟩]⟩

/-- `DEFAULT_SCORING["ndvi_drop"]`. -/
def default_ndvi_drop : FactorConfig :=
  ⟨25, [⟨-(1/2), 25, "NDVI_DROP_SEVERE"⟩, ⟨-(2/5), 20, "NDVI_DROP_STRONG"⟩,
        ⟨-(3/10), 15, "NDVI_DROP_MODERATE"⟩, ⟨-(1/5), 10, "NDVI_DROP_MILD"⟩]⟩

/-- `DEFAULT_SCORING["area"]`. -/
def default_area : FactorConfig :=
  ⟨15, [⟨50000, 15, "LARGE_AREA_GT_50000M2"⟩, ⟨25000, 11, "LARGE_AREA_GT_25000M2"⟩,
        ⟨10000, 8, "AREA_GT_10000M2"⟩, ⟨5000, 4, "AREA_GT_5000M2"⟩]⟩

/-- `DEFAULT_SCORING["slope"]`. -/
def default_slope : FactorConfig :=
  ⟨10, [⟨30, 10, "SLOPE_GT_30DEG"⟩, ⟨20, 7, "SLOPE_GT_20DEG"⟩,
        ⟨15, 5, "SLOPE_GT_15DEG"⟩, ⟨10, 3, "SLOPE_GT_10DEG"⟩]⟩

/-- `DEFAULT_SCORING["directional_slope"]`. -/
structure DirectionalSlopeConfig where
  max_points : ℤ := 20
  upslope_threshold_m : ℚ := 5
  downslope_threshold_m : ℚ := -5
  upslope_multiplier_base : ℚ := 3/2
  upslope_multiplier_max : ℚ := 5/2
  upslope_elev_scale : ℚ := 100
  downslope_multiplier_base : ℚ := 9/10
  downslope_multiplier_min : ℚ := 7/10
  downslope_elev_scale : ℚ := 100
deriving DecidableEq

def default_directional_slope : DirectionalSlopeConfig := {}

/-- An aspect compass-sector range entry. -/
structure AspectRange where
  min_deg : ℚ
  max_deg : ℚ
  points : ℤ
  reason_code : String
deriving DecidableEq

/-- `DEFAULT_SCORING["aspect"]["ranges"]`. -/
def default_aspect_ranges : List AspectRange :=
  [⟨315/2, 405/2, 5, "ASPECT_SOUTH"⟩,
   ⟨135, 315/2, 4, "ASPECT_SE"⟩, ⟨405/2, 225, 4, "ASPECT_SW"⟩,
   ⟨225/2, 135, 2, "ASPECT_EAST"⟩, ⟨225, 495/2, 2, "ASPECT_WEST"⟩,
   ⟨45/2, 135/2, 1, "ASPECT_NE"⟩, ⟨585/2, 675/2, 1, "ASPECT_NW"⟩,
   ⟨675/2, 360, 0, "ASPECT_NORTH"⟩, ⟨0, 45/2, 0, "ASPECT_NORTH"⟩]

def default_aspect_max_points : ℤ := 5

/-- `DEFAULT_SCORING["land_cover"]["multipliers"]`. -/
def default_land_cover_multipliers : List (String × ℚ) :=
  [("Forest", 1), ("Residential", 9/10), ("HerbaceousVegetation", 17/20),
   ("River", 4/5), ("PermanentCrop", 3/4), ("Pasture", 7/10),
   ("Industrial", 1/2), ("SeaLake", 2/5), ("AnnualCrop", 3/10), ("Highway", 1/4)]

/-- `DEFAULT_SCORING["landslide"]`. -/
structure LandslideConfig where
  multiplier : ℚ := 9/5
  upslope_boost : ℚ := 1/2
  min_slope_deg : ℚ := 15
  max_multiplier : ℚ := 5/2
deriving DecidableEq

def default_landslide : LandslideConfig := {}

/-- `DEFAULT_SCORING["criticality"]["multipliers"]`. -/
def default_criticality_multipliers : List (ℤ × ℚ) :=
  [(0, 1/2), (1, 1), (2, 3/2), (3, 2)]

/-- A `{name, min_score, max_score}` risk-level band. -/
structure RiskLevelBand where
  name : String
  min_score : ℤ
  max_score : ℤ
deriving DecidableEq

/-- `DEFAULT_SCORING["risk_levels"]`. -/
def default_risk_levels : List RiskLevelBand :=
  [⟨"Low", 0, 24⟩, ⟨"Medium", 25, 49⟩, ⟨"High", 50, 74⟩, ⟨"Critical", 75, 100⟩]

/-! ## risk/scoring.py: factors and the scorer -/

/-- `ScoringFactor`.  The `details` strings are float-formatted display text
(`f"Distance: {distance_m:.0f}m"` …); they carry no logic and are modelled
as `""`. -/
structure ScoringFactor where
  name : String
  points : ℤ
  max_points : ℤ
  reason_code : String
  details : String := ""
deriving DecidableEq

/-- `RiskScore`. -/
structure RiskScore where
  score : ℤ
  level : String
  factors : List ScoringFactor
deriving DecidableEq

/-- `RiskScorer._score_distance` (scoring.py lines 309-330): first threshold
with `distance_m < t.distance_m` wins. -/
def score_distance (cfg : FactorConfig) (distance_m : ℚ) : ScoringFactor :=
  match cfg.thresholds.find? (fun t => decide (distance_m < t.value)) with
  | some t => ⟨"Distance", t.points, cfg.max_points, t.reason_code, ""⟩
  | none => ⟨"Distance", 0, cfg.max_points, "DISTANCE_FAR", ""⟩

/-- `RiskScorer._score_ndvi` (scoring.py lines 332-353): first threshold with
`ndvi_drop <= t.delta` wins. -/
def score_ndvi (cfg : FactorConfig) (ndvi_drop : ℚ) : ScoringFactor :=
  match cfg.thresholds.find? (fun t => decide (ndvi_drop ≤ t.value)) with
  | some t => ⟨"NDVI Drop", t.points, cfg.max_points, t.reason_code, ""⟩
  | none => ⟨"NDVI Drop", 0, cfg.max_points, "NDVI_DROP_MINIMAL", ""⟩

/-- `RiskScorer._score_area` (scoring.py lines 355-376): first threshold with
`area_m2 >= t.area_m2` wins. -/
def score_area (cfg : FactorConfig) (area_m2 : ℚ) : ScoringFactor :=
  match cfg.thresholds.find? (fun t => decide (area_m2 ≥ t.value)) with
  | some t => ⟨"Area", t.points, cfg.max_points, t.reason_code, ""⟩
  | none => ⟨"Area", 0, cfg.max_points, "AREA_SMALL", ""⟩

/-- The base-slope scan inside `_score_directional_slope` (scoring.py lines
430-439): first threshold with `slope_deg >= t.slope_deg` wins. -/
def base_slope_points (cfg : FactorConfig) (slope_deg : ℚ) : ℤ × String :=
  match cfg.thresholds.find? (fun t => decide (slope_deg ≥ t.value)) with
  | some t => (t.points, t.reason_code)
  | none => (0, "SLOPE_FLAT")

/-- The directional modifier of `_score_directional_slope` (scoring.py lines
451-489), extended with the value 1 for the missing-elevation branch (where
the code uses no modifier at all). -/
def directional_modifier (cfg : DirectionalSlopeConfig) (elevation_diff_m : Option ℚ) : ℚ :=
  match elevation_diff_m with
  | none => 1
  | some diff =>
    if diff > cfg.upslope_threshold_m then
      cfg.upslope_multiplier_base +
        min (cfg.upslope_multiplier_max - cfg.upslope_multiplier_base)
          ((cfg.upslope_multiplier_max - cfg.upslope_multiplier_base) * diff / cfg.upslope_elev_scale)
    else if diff < cfg.downslope_threshold_m then
      cfg.downslope_multiplier_base -
        min (cfg.downslope_multiplier_base - cfg.downslope_multiplier_min)
          ((cfg.downslope_multiplier_base - cfg.downslope_multiplier_min) * |diff| / cfg.downslope_elev_scale)
    else 1

/-- `RiskScorer._score_directional_slope` (scoring.py lines 401-501). -/
def score_directional_slope (slope_cfg : FactorConfig) (dir_cfg : DirectionalSlopeConfig)
    (slope_deg : ℚ) (elevation_diff_m : Option ℚ) : ScoringFactor :=
  let base := base_slope_points slope_cfg slope_deg
  match elevation_diff_m with
  | none => ⟨"Slope", base.1, dir_cfg.max_points, base.2, ""⟩
  | some diff =>
    let modifier := directional_modifier dir_cfg (some diff)
    let direction : String :=
      if diff > dir_cfg.upslope_threshold_m then "UPSLOPE"
      else if diff < dir_cfg.downslope_threshold_m then "DOWNSLOPE"
      else "LEVEL"
    let final_points := min dir_cfg.max_points (pyInt ((base.1 : ℚ) * modifier))
    ⟨"Slope + Direction", final_points, dir_cfg.max_points, "SLOPE_" ++ direction, ""⟩

/-- `RiskScorer._score_aspect` (scoring.py lines 503-542): normalize to
[0,360) then first matching `min_deg <= aspect < max_deg` range wins. -/
def score_aspect (ranges : List AspectRange) (max_points : ℤ) (aspect_degrees : ℚ) : ScoringFactor :=
  let aspect := pyMod aspect_degrees 360
  match ranges.find? (fun r => decide (r.min_deg ≤ aspect ∧ aspect < r.max_deg)) with
  | some r => ⟨"Aspect", r.points, max_points, r.reason_code, ""⟩
  | none => ⟨"Aspect", 0, max_points, "ASPECT_OTHER", ""⟩

/-- `RiskScorer._get_land_cover_multiplier` (scoring.py lines 544-563). -/
def land_cover_multiplier (multipliers : List (String × ℚ)) (land_cover_class : Option String) : ℚ :=
  match land_cover_class with
  | none => 1
  | some c => (multipliers.lookup c).getD 1

/-- `RiskScorer._score_landslide` (scoring.py lines 565-624).  The Python
`slope = change.slope_degree_mean or 0.0` maps both `None` and `0.0` to
`0.0`, i.e. `getD 0`.  The truthiness test
`elevation_diff_m and elevation_diff_m > 5.0` agrees with `> 5` (a falsy
`0.0` fails `> 5.0` anyway). -/
def score_landslide (cfg : LandslideConfig) (change : ChangePolygonRec)
    (elevation_diff_m : Option ℚ) : Option ScoringFactor :=
  if change.change_type ≠ "LandslideDebris" then none
  else
    let slope := change.slope_degree_mean.getD 0
    if slope < cfg.min_slope_deg then
      some ⟨"Landslide Detection", 0, 0, "LANDSLIDE_LOW_SLOPE", ""⟩
    else
      let reason : String :=
        match elevation_diff_m with
        | some d => if d > 5 then "LANDSLIDE_UPSLOPE" else "LANDSLIDE_DETECTED"
        | none => "LANDSLIDE_DETECTED"
      some ⟨"Landslide Detection", 0, 0, reason, ""⟩

/-- `RiskScorer._get_risk_level` (scoring.py lines 644-649). -/
def get_risk_level : List RiskLevelBand → ℤ → String
  | [], _ => "Unknown"
  | band :: rest, score =>
    if band.min_score ≤ score ∧ score ≤ band.max_score then band.name
    else get_risk_level rest score

/-- Python exceptions surfaced by the embedding. -/
inductive PyError
  | attributeError
deriving DecidableEq

/-- Phase 1 of `calculate_risk_score` (scoring.py lines 208-240): the
additive factors — distance, NDVI drop, area, then slope and aspect when
their inputs are present — together with the running total. -/
def additive_phase (c : ChangePolygonRec) (proximity : ProximityResult) :
    List ScoringFactor × ℤ :=
  let distance_score := score_distance default_distance proximity.distance_meters
  let ndvi_score := score_ndvi default_ndvi_drop c.ndvi_drop_mean
  let area_score := score_area default_area c.area_sq_meters
  let factors0 : List ScoringFactor := [distance_score, ndvi_score, area_score]
  let total0 : ℤ := distance_score.points + ndvi_score.points + area_score.points
  let step1 : List ScoringFactor × ℤ :=
    match c.slope_degree_mean with
    | some s =>
      let slope_score := score_directional_slope default_slope default_directional_slope s
        proximity.elevation_diff_m
      (factors0 ++ [slope_score], total0 + slope_score.points)
    | none => (factors0, total0)
  match c.aspect_degrees with
  | some a =>
    let aspect_score := score_aspect default_aspect_ranges default_aspect_max_points a
    (step1.1 ++ [aspect_score], step1.2 + aspect_score.points)
  | none => step1

/-- The land-cover multiplier step of `calculate_risk_score` (scoring.py
lines 242-264): fold the multiplier's delta into the running total, or just
record a baseline factor when the multiplier is 1.0 and a class is set.
`lcc` is the value read from `change.land_cover_class`. -/
def land_cover_step (lcc : Option String) (step2 : List ScoringFactor × ℤ) :
    List ScoringFactor × ℤ :=
  let lc_multiplier := land_cover_multiplier default_land_cover_multipliers lcc
  if lc_multiplier ≠ 1 then
    let lc_delta := pyInt ((step2.2 : ℚ) * lc_multiplier) - step2.2
    let code : String :=
      match lcc with
      | some s => "LANDCOVER_" ++ s.toUpper
      | none => "LANDCOVER_UNKNOWN"
    (step2.1 ++ [⟨"Land Cover", lc_delta, 0, code, ""⟩],
     pyInt ((step2.2 : ℚ) * lc_multiplier))
  else if lcc ≠ none then
    (step2.1 ++ [⟨"Land Cover", 0, 0, "LANDCOVER_" ++ (lcc.getD "").toUpper, ""⟩], step2.2)
  else step2

/-- The landslide multiplier step of `calculate_risk_score` (scoring.py
lines 266-284): when `_score_landslide` produced a factor and the slope
floor was met, recompute the multiplier (base 1.8, upslope-boosted to at
most 2.5) and fold its delta into the running total. -/
def landslide_step (c : ChangePolygonRec) (proximity : ProximityResult)
    (step3 : List ScoringFactor × ℤ) : List ScoringFactor × ℤ :=
  match score_landslide default_landslide c proximity.elevation_diff_m with
  | some ls_factor =>
    if ls_factor.reason_code ≠ "LANDSLIDE_LOW_SLOPE" then
      let ls_mult : ℚ :=
        match proximity.elevation_diff_m with
        | some d =>
          if d > 5 then
            min (default_landslide.multiplier + default_landslide.upslope_boost)
              default_landslide.max_multiplier
          else default_landslide.multiplier
        | none => default_landslide.multiplier
      let ls_delta := pyInt ((step3.2 : ℚ) * ls_mult) - step3.2
      (step3.1 ++ [{ ls_factor with points := ls_delta }],
       pyInt ((step3.2 : ℚ) * ls_mult))
    else (step3.1 ++ [ls_factor], step3.2)
  | none => step3

/-- Phase 2 of `calculate_risk_score` (scoring.py lines 242-284): the land
cover multiplier followed by the landslide multiplier, in that fixed order. -/
def multiplicative_phase (lcc : Option String) (c : ChangePolygonRec)
    (proximity : ProximityResult) (step2 : List ScoringFactor × ℤ) :
    List ScoringFactor × ℤ :=
  landslide_step c proximity (land_cover_step lcc step2)

/-- `RiskScorer.calculate_risk_score` (scoring.py lines 194-307) with the
default configuration.  The read of `change.land_cover_class` at line 243
raises AttributeError when the attribute was never attached; every other
step is total.  The criticality multiplier and the score cap close the
computation (lines 286-307). -/
def calculate_risk_score (change : ChangePolygonObj) (proximity : ProximityResult) :
    Except PyError RiskScore :=
  let step2 := additive_phase change.base proximity
  match change.land_cover_class_attr with
  | none => Except.error PyError.attributeError
  | some lcc =>
    let step4 := multiplicative_phase lcc change.base proximity step2
    let multiplier := (default_criticality_multipliers.lookup proximity.criticality).getD 1
    let adjusted_score := pyInt (min 100 ((step4.2 : ℚ) * multiplier))
    let crit_factor : ScoringFactor :=
      ⟨"Criticality",
       if multiplier > 1 then pyInt ((step4.2 : ℚ) * (multiplier - 1)) else 0,
       10, "CRITICALITY_" ++ proximity.criticality_name.toUpper, ""⟩
    let level := get_risk_level default_risk_levels adjusted_score
    Except.ok ⟨adjusted_score, level, step4.1 ++ [crit_factor]⟩

/-! ## risk/scoring.py: the mutable configuration heap (RiskScorer.__init__)

`RiskScorer.__init__` does `self.config = DEFAULT_SCORING.copy()` — a
*shallow* dict copy: the top-level name→dict map is fresh, but the nested
per-factor dicts are the very objects stored in the module-level
`DEFAULT_SCORING`.  `_merge_config` then runs
`self.config[factor].update(settings)`, mutating those shared nested dicts
in place.  The model makes the sharing explicit: nested factor dicts live
in a heap addressed by `ℕ`, a scorer's config is a name→address map, and
`copy()` duplicates only the map. -/

/-- The keys a `dict.update(settings)` merge may overwrite on a factor dict
(the fields exercised by the code and its tests). -/
structure FactorSettings where
  max_points : Option ℤ := none
  thresholds : Option (List Threshold) := none
deriving DecidableEq

/-- Python `dict.update`: fields present in `settings` overwrite. -/
def FactorConfig.update (d : FactorConfig) (s : FactorSettings) : FactorConfig :=
  ⟨s.max_points.getD d.max_points, s.thresholds.getD d.thresholds⟩

/-- Heap of nested factor dicts, addressed by allocation index. -/
def Heap : Type := ℕ → FactorConfig

/-- The name→address map stored in the module-level `DEFAULT_SCORING` for
the four threshold factors (the nested dicts mutable through `update`). -/
def default_scoring_addrs : List (String × ℕ) :=
  [("distance", 0), ("ndvi_drop", 1), ("area", 2), ("slope", 3)]

/-- The heap contents at module load: the `DEFAULT_SCORING` literals. -/
def initial_heap : Heap := fun a =>
  if a = 0 then default_distance
  else if a = 1 then default_ndvi_drop
  else if a = 2 then default_area
  else default_slope

/-- A `RiskScorer` object: its `self.config` name→address map. -/
structure ScorerObj where
  config : List (String × ℕ)
deriving DecidableEq

/-- A caller-supplied override: the `{"scoring_factors": {...}}` shape
consumed by `_merge_config` (scoring.py lines 183-192). -/
structure OverrideConfig where
  scoring_factors : List (String × FactorSettings)
deriving DecidableEq

/-- `RiskScorer._merge_config`: for each factor present in the override and
in `self.config`, `self.config[factor].update(settings)` — an in-place
mutation of the heap cell the address points to. -/
def merge_config (self : ScorerObj) (h : Heap) (cfg : OverrideConfig) : Heap :=
  cfg.scoring_factors.foldl
    (fun hp p =>
      match self.config.lookup p.1 with
      | some addr => fun a => if a = addr then (hp addr).update p.2 else hp a
      | none => hp)
    h

/-- `RiskScorer.__init__` (scoring.py lines 165-181): shallow-copy the
default config (same addresses!), then merge any override. -/
def riskScorer_init (cfg : Option OverrideConfig) (h : Heap) : ScorerObj × Heap :=
  let scorer : ScorerObj := ⟨default_scoring_addrs⟩
  match cfg with
  | some c => (scorer, merge_config scorer h c)
  | none => (scorer, h)

/-- `self._score_distance` reading its threshold dict through the heap. -/
def scorer_score_distance (s : ScorerObj) (h : Heap) (distance_m : ℚ) : ScoringFactor :=
  score_distance (h ((s.config.lookup "distance").getD 0)) distance_m



/-! ## Helper lemmas -/

theorem pyInt_nonneg {q : ℚ} (h : 0 ≤ q) : 0 ≤ pyInt q := by
  unfold pyInt
  rw [if_pos h]
  exact Int.floor_nonneg.mpr h

theorem pyInt_le_int {q : ℚ} {n : ℤ} (h0 : 0 ≤ q) (h : q ≤ (n : ℚ)) : pyInt q ≤ n := by
  unfold pyInt
  rw [if_pos h0]
  calc ⌊q⌋ ≤ ⌊(n : ℚ)⌋ := Int.floor_le_floor h
    _ = n := Int.floor_intCast n

theorem pyInt_intCast (n : ℤ) : pyInt (n : ℚ) = n := by
  unfold pyInt
  split_ifs with h
  · exact Int.floor_intCast n
  · rw [← Int.cast_neg, Int.floor_intCast]
    omega

theorem lookup_getD_nonneg {α : Type} [BEq α] (l : List (α × ℚ))
    (h : ∀ p ∈ l, 0 ≤ p.2) (c : α) : 0 ≤ ((l.lookup c).getD 1) := by
  induction l with
  | nil => norm_num [List.lookup]
  | cons p rest ih =>
    rw [List.lookup]
    split
    · simpa using h p (List.mem_cons_self p rest)
    · exact ih fun q hq => h q (List.mem_cons_of_mem p hq)

theorem lookup_getD_pos {α : Type} [BEq α] (l : List (α × ℚ))
    (h : ∀ p ∈ l, 0 < p.2) (c : α) : 0 < ((l.lookup c).getD 1) := by
  induction l with
  | nil => norm_num [List.lookup]
  | cons p rest ih =>
    rw [List.lookup]
    split
    · simpa using h p (List.mem_cons_self p rest)
    · exact ih fun q hq => h q (List.mem_cons_of_mem p hq)

theorem score_distance_points_nonneg (cfg : FactorConfig)
    (h : ∀ t ∈ cfg.thresholds, 0 ≤ t.points) (d : ℚ) :
    0 ≤ (score_distance cfg d).points := by
  unfold score_distance
  cases hf : cfg.thresholds.find? (fun t => decide (d < t.value)) with
  | none => simp
  | some t => simpa using h t (List.mem_of_find?_eq_some hf)

theorem score_ndvi_points_nonneg (cfg : FactorConfig)
    (h : ∀ t ∈ cfg.thresholds, 0 ≤ t.points) (v : ℚ) :
    0 ≤ (score_ndvi cfg v).points := by
  unfold score_ndvi
  cases hf : cfg.thresholds.find? (fun t => decide (v ≤ t.value)) with
  | none => simp
  | some t => simpa using h t (List.mem_of_find?_eq_some hf)

theorem score_area_points_nonneg (cfg : FactorConfig)
    (h : ∀ t ∈ cfg.thresholds, 0 ≤ t.points) (v : ℚ) :
    0 ≤ (score_area cfg v).points := by
  unfold score_area
  cases hf : cfg.thresholds.find? (fun t => decide (v ≥ t.value)) with
  | none => simp
  | some t => simpa using h t (List.mem_of_find?_eq_some hf)

theorem base_slope_points_bounds (s : ℚ) :
    0 ≤ (base_slope_points default_slope s).1 ∧ (base_slope_points default_slope s).1 ≤ 10 := by
  unfold base_slope_points
  cases hf : default_slope.thresholds.find? (fun t => decide (s ≥ t.value)) with
  | none => simp
  | some t =>
    have ht := List.mem_of_find?_eq_some hf
    simp only [default_slope, List.mem_cons, List.not_mem_nil, or_false] at ht
    rcases ht with h | h | h | h <;> subst h <;> simp

theorem directional_modifier_nonneg (ed : Option ℚ) :
    0 ≤ directional_modifier default_directional_slope ed := by
  unfold directional_modifier
  cases ed with
  | none => norm_num
  | some d =>
    simp only [default_directional_slope]
    split_ifs with h1 h2
    · have hd : (0 : ℚ) ≤ d / 100 := by
        have : (0 : ℚ) < d := lt_trans (by norm_num) h1
        positivity
      have : (0 : ℚ) ≤ min ((5:ℚ)/2 - 3/2) (((5:ℚ)/2 - 3/2) * d / 100) := by
        apply le_min (by norm_num)
        nlinarith
      linarith
    · have : min ((9:ℚ)/10 - 7/10) (((9:ℚ)/10 - 7/10) * |d| / 100) ≤ (9:ℚ)/10 - 7/10 :=
        min_le_left _ _
      linarith
    · norm_num

theorem score_directional_slope_points_nonneg (s : ℚ) (ed : Option ℚ) :
    0 ≤ (score_directional_slope default_slope default_directional_slope s ed).points := by
  unfold score_directional_slope
  cases ed with
  | none => simpa using (base_slope_points_bounds s).1
  | some d =>
    simp only
    apply le_min (by norm_num [default_directional_slope])
    apply pyInt_nonneg
    apply mul_nonneg
    · exact_mod_cast (base_slope_points_bounds s).1
    · exact directional_modifier_nonneg (some d)

theorem score_aspect_points_nonneg (a : ℚ) :
    0 ≤ (score_aspect default_aspect_ranges default_aspect_max_points a).points := by
  simp only [score_aspect]
  split
  · rename_i r hr
    have hm := List.mem_of_find?_eq_some hr
    simp only [default_aspect_ranges, List.mem_cons, List.not_mem_nil, or_false] at hm
    rcases hm with h | h | h | h | h | h | h | h | h <;> subst h <;> norm_num
  · norm_num

theorem land_cover_multiplier_nonneg (lcc : Option String) :
    0 ≤ land_cover_multiplier default_land_cover_multipliers lcc := by
  unfold land_cover_multiplier
  cases lcc with
  | none => norm_num
  | some c =>
    refine lookup_getD_nonneg default_land_cover_multipliers ?_ c
    intro p hp
    fin_cases hp <;> norm_num

theorem criticality_multiplier_pos (k : ℤ) :
    0 < ((default_criticality_multipliers.lookup k).getD 1) := by
  refine lookup_getD_pos default_criticality_multipliers ?_ k
  intro p hp
  fin_cases hp <;> norm_num

theorem additive_phase_total_nonneg (c : ChangePolygonRec) (proximity : ProximityResult) :
    0 ≤ (additive_phase c proximity).2 := by
  have hd := score_distance_points_nonneg default_distance (by decide) proximity.distance_meters
  have hn := score_ndvi_points_nonneg default_ndvi_drop (by decide) c.ndvi_drop_mean
  have ha := score_area_points_nonneg default_area (by decide) c.area_sq_meters
  unfold additive_phase
  rcases c.slope_degree_mean with _ | s <;> rcases c.aspect_degrees with _ | a <;> simp only
  · linarith
  · have hasp := score_aspect_points_nonneg a
    linarith
  · have hs := score_directional_slope_points_nonneg s proximity.elevation_diff_m
    linarith
  · have hs := score_directional_slope_points_nonneg s proximity.elevation_diff_m
    have hasp := score_aspect_points_nonneg a
    linarith

theorem land_cover_step_total_nonneg (lcc : Option String)
    (step2 : List ScoringFactor × ℤ) (h2 : 0 ≤ step2.2) :
    0 ≤ (land_cover_step lcc step2).2 := by
  have hlc := land_cover_multiplier_nonneg lcc
  simp only [land_cover_step]
  split_ifs
  · exact pyInt_nonneg (mul_nonneg (by exact_mod_cast h2) hlc)
  · exact h2
  · exact h2

theorem landslide_step_total_nonneg (c : ChangePolygonRec) (proximity : ProximityResult)
    (step3 : List ScoringFactor × ℤ) (h3 : 0 ≤ step3.2) :
    0 ≤ (landslide_step c proximity step3).2 := by
  have hm : ∀ ed : Option ℚ, (0:ℚ) ≤
      (match ed with
        | some d =>
          if d > 5 then
            min (default_landslide.multiplier + default_landslide.upslope_boost)
              default_landslide.max_multiplier
          else default_landslide.multiplier
        | none => default_landslide.multiplier) := by
    intro ed
    rcases ed with _ | d
    · norm_num [default_landslide]
    · simp only
      split_ifs <;> norm_num [default_landslide, le_min_iff]
  simp only [landslide_step]
  cases score_landslide default_landslide c proximity.elevation_diff_m with
  | none => exact h3
  | some f =>
    simp only
    split_ifs
    · exact pyInt_nonneg (mul_nonneg (by exact_mod_cast h3) (hm proximity.elevation_diff_m))
    · exact h3

theorem multiplicative_phase_total_nonneg (lcc : Option String) (c : ChangePolygonRec)
    (proximity : ProximityResult) (step2 : List ScoringFactor × ℤ)
    (h2 : 0 ≤ step2.2) :
    0 ≤ (multiplicative_phase lcc c proximity step2).2 :=
  landslide_step_total_nonneg c proximity _ (land_cover_step_total_nonneg lcc step2 h2)

theorem get_risk_level_default_mem (s : ℤ) (h0 : 0 ≤ s) (h1 : s ≤ 100) :
    get_risk_level default_risk_levels s ∈ ["Low", "Medium", "High", "Critical"] := by
  simp only [default_risk_levels, get_risk_level]
  split_ifs with hL hM hH hC
  · simp
  · simp
  · simp
  · simp
  · exfalso
    simp only [not_and, not_le] at hL hM hH hC
    omega

/-! ## Example inputs -/

/-- A typical enriched change polygon (the test suite's default fixture):
ML enrichment ran and set `land_cover_class = None`. -/
def example_change : ChangePolygonObj :=
  ⟨{ area_sq_meters := 15000, ndvi_drop_mean := -(7/20), ndvi_drop_max := -(11/20),
     change_type := "VegetationLoss", slope_degree_mean := some 22,
     slope_degree_max := some 35, aspect_degrees := some 180, elevation_m := some 850 },
   some none⟩

/-- A proximity result for a nearby asset of Medium criticality. -/
def example_proximity : ProximityResult :=
  { asset_id := "asset-001", asset_name := "Test Building", asset_type := 0,
    asset_type_name := "Building", criticality := 1, criticality_name := "Medium",
    distance_meters := 250, asset_geometry := ⟨GeomType.point, -121, 39, -121, 39⟩,
    asset_elevation_m := some 800, elevation_diff_m := some 50, is_upslope := some true,
    slope_toward_asset_deg := some 5 }

/-- The score the default scorer produces for the example pair. -/
def example_risk_score : RiskScore :=
  ((calculate_risk_score example_change example_proximity).toOption).getD ⟨0, "Low", []⟩

/-! ## Claim theorems -/

/-- C1: for every ChangePolygon and ProximityResult accepted by
`RiskScorer.calculate_risk_score` (with the default configuration), the
returned RiskScore has an integer score with 0 ≤ score ≤ 100 and a level
drawn from {Low, Medium, High, Critical}. -/
theorem calculate_risk_score_bounded (change : ChangePolygonObj)
    (proximity : ProximityResult) (rs : RiskScore)
    (h : calculate_risk_score change proximity = Except.ok rs) :
    0 ≤ rs.score ∧ rs.score ≤ 100 ∧
      rs.level ∈ ["Low", "Medium", "High", "Critical"] := by
  rcases hat : change.land_cover_class_attr with _ | lcc
  · simp only [calculate_risk_score, hat] at h
    exact Except.noConfusion h
  · simp only [calculate_risk_score, hat] at h
    obtain rfl := Except.ok.inj h
    have h4 : (0:ℤ) ≤
        (multiplicative_phase lcc change.base proximity
          (additive_phase change.base proximity)).2 :=
      multiplicative_phase_total_nonneg lcc change.base proximity _
        (additive_phase_total_nonneg change.base proximity)
    have hm := criticality_multiplier_pos proximity.criticality
    have hq : (0:ℚ) ≤
        ((multiplicative_phase lcc change.base proximity
          (additive_phase change.base proximity)).2 : ℚ) *
          ((default_criticality_multipliers.lookup proximity.criticality).getD 1) :=
      mul_nonneg (by exact_mod_cast h4) hm.le
    have h0 : (0:ℚ) ≤ min 100
        (((multiplicative_phase lcc change.base proximity
          (additive_phase change.base proximity)).2 : ℚ) *
          ((default_criticality_multipliers.lookup proximity.criticality).getD 1)) :=
      le_min (by norm_num) hq
    have hb1 : 0 ≤ pyInt (min 100
        (((multiplicative_phase lcc change.base proximity
          (additive_phase change.base proximity)).2 : ℚ) *
          ((default_criticality_multipliers.lookup proximity.criticality).getD 1))) :=
      pyInt_nonneg h0
    have hb2 : pyInt (min 100
        (((multiplicative_phase lcc change.base proximity
          (additive_phase change.base proximity)).2 : ℚ) *
          ((default_criticality_multipliers.lookup proximity.criticality).getD 1))) ≤ 100 := by
      apply pyInt_le_int h0
      push_cast
      exact min_le_left _ _
    exact ⟨hb1, hb2, get_risk_level_default_mem _ hb1 hb2⟩

/-- C1 witness: the example pair is accepted and scores 63 ("High"), inside
the bounds. -/
theorem calculate_risk_score_bounded_witness :
    0 ≤ example_risk_score.score ∧ example_risk_score.score ≤ 100 ∧
      example_risk_score.level ∈ ["Low", "Medium", "High", "Critical"] :=
  calculate_risk_score_bounded example_change example_proximity example_risk_score
    (by with_unfolding_all rfl)

/-- C2: a ChangePolygon that received no ML enrichment has no
`land_cover_class` attribute at all, and `calculate_risk_score` then raises
AttributeError at the `change.land_cover_class` read instead of treating
the change as neutral. -/
theorem calculate_risk_score_attribute_error :
    calculate_risk_score ⟨example_change.base, none⟩ example_proximity =
      Except.error PyError.attributeError := by rfl

/-- C3: the `changeType` codes `to_dict` actually emits.  The code's table
is {Unknown 0, VegetationLoss 1, VegetationGain 2, UrbanExpansion 3,
WaterChange 4, FireBurnScar 5, LandslideDebris 6, DroughtStress 7,
AgriculturalChange 8}, not the 7-entry table of the claim: FireBurnScar
serializes to 5 (claim says 3), DroughtStress to 7 (claim says 4),
AgriculturalChange to 8 (claim says 5).  Unrecognized strings do fall back
to 0. -/
theorem change_type_serialization_codes :
    change_type_int "Unknown" = 0 ∧ change_type_int "VegetationLoss" = 1 ∧
    change_type_int "VegetationGain" = 2 ∧ change_type_int "UrbanExpansion" = 3 ∧
    change_type_int "WaterChange" = 4 ∧ change_type_int "FireBurnScar" = 5 ∧
    change_type_int "LandslideDebris" = 6 ∧ change_type_int "DroughtStress" = 7 ∧
    change_type_int "AgriculturalChange" = 8 ∧ change_type_int "VegetationClearing" = 0 :=
  ⟨rfl, rfl, rfl, rfl, rfl, rfl, rfl, rfl, rfl, rfl⟩

/-- C4: the classifier in the source takes only the NDVI drop — there is no
land-cover parameter — so a severe drop yields "VegetationLoss" regardless
of any Forest/AnnualCrop context (the claim's decision table expects
FireBurnScar / AgriculturalChange / DroughtStress outcomes that this
function can never produce). -/
theorem classify_change_ignores_land_cover :
    classify_change (-(1/2)) = "VegetationLoss" ∧
    classify_change (-(3/10)) = "VegetationLoss" ∧
    (∀ q : ℚ, classify_change q = "VegetationLoss" ∨ classify_change q = "VegetationGain" ∨
      classify_change q = "Unknown") := by
  refine ⟨by with_unfolding_all rfl, by with_unfolding_all rfl, fun q => ?_⟩
  unfold classify_change
  split_ifs <;> simp

/-- C5: classification band boundaries are strict — a mean drop of exactly
−0.2 yields "Unknown", a drop of exactly 0.2 yields "Unknown", and a drop
of exactly −0.4 yields "VegetationLoss" through the moderate band (it fails
the strict severe-band guard `< −0.4` but satisfies `< −0.2`). -/
theorem classification_boundaries_strict :
    classify_change (-(1/5)) = "Unknown" ∧
    classify_change (1/5) = "Unknown" ∧
    classify_change (-(2/5)) = "VegetationLoss" ∧
    ¬((-(2/5) : ℚ) < -(2/5)) ∧ ((-(2/5) : ℚ) < -(1/5)) :=
  ⟨by with_unfolding_all rfl, by with_unfolding_all rfl, by with_unfolding_all rfl,
   by norm_num, by norm_num⟩

/-- The distance factor as a closed-form tier function. -/
theorem score_distance_default_eq (d : ℚ) :
    (score_distance default_distance d).points =
      if d < 100 then 28 else if d < 500 then 21 else if d < 1000 then 14
      else if d < 2500 then 7 else 0 := by
  simp only [score_distance, default_distance, List.find?]
  by_cases h1 : d < 100 <;> by_cases h2 : d < 500 <;> by_cases h3 : d < 1000 <;>
    by_cases h4 : d < 2500 <;> simp [h1, h2, h3, h4]

/-- C6: the distance factor's tier values (strictly-below boundaries) and
its non-increase in distance. -/
theorem distance_factor_tiers :
    (∀ d : ℚ,
      (d < 100 → (score_distance default_distance d).points = 28) ∧
      (100 ≤ d → d < 500 → (score_distance default_distance d).points = 21) ∧
      (500 ≤ d → d < 1000 → (score_distance default_distance d).points = 14) ∧
      (1000 ≤ d → d < 2500 → (score_distance default_distance d).points = 7) ∧
      (2500 ≤ d → (score_distance default_distance d).points = 0)) ∧
    (∀ d e : ℚ, d ≤ e →
      (score_distance default_distance e).points ≤ (score_distance default_distance d).points) := by
  constructor
  · intro d
    rw [score_distance_default_eq]
    refine ⟨fun h => ?_, fun h1 h2 => ?_, fun h1 h2 => ?_, fun h1 h2 => ?_, fun h => ?_⟩ <;>
      split_ifs <;> first | rfl | linarith
  · intro d e hde
    rw [score_distance_default_eq, score_distance_default_eq]
    split_ifs <;> linarith

/-- C6 witness: 99m→28, 100m→21, 2499m→7, 2500m→0, and 2500m scores no more
than 99m. -/
theorem distance_factor_tiers_witness :
    (score_distance default_distance 99).points = 28 ∧
    (score_distance default_distance 100).points = 21 ∧
    (score_distance default_distance 2499).points = 7 ∧
    (score_distance default_distance 2500).points = 0 ∧
    (score_distance default_distance 2500).points ≤ (score_distance default_distance 99).points :=
  ⟨(distance_factor_tiers.1 99).1 (by norm_num),
   (distance_factor_tiers.1 100).2.1 (by norm_num) (by norm_num),
   (distance_factor_tiers.1 2499).2.2.2.1 (by norm_num) (by norm_num),
   (distance_factor_tiers.1 2500).2.2.2.2 (by norm_num),
   distance_factor_tiers.2 99 2500 (by norm_num)⟩

/-- The Slope+Direction points always equal the base points times the
directional modifier, floored and capped at 20. -/
theorem score_directional_slope_points_eq (s : ℚ) (ed : Option ℚ) :
    (score_directional_slope default_slope default_directional_slope s ed).points =
      min 20 (pyInt (((base_slope_points default_slope s).1 : ℚ) *
        directional_modifier default_directional_slope ed)) := by
  cases ed with
  | some d => rfl
  | none =>
    simp only [score_directional_slope, directional_modifier, mul_one, pyInt_intCast]
    have hb := (base_slope_points_bounds s).2
    omega

/-- C7: (a) a computed DirectionalTerrainMetrics with elevation difference
strictly above 5 m has `is_upslope = true`; (b) an elevation difference in
[−5, 5] gives directional modifier 1.0 and leaves the base slope points
unchanged; (c) in all cases the factor's points are
`floor(base_points × modifier)` capped at 20. -/
theorem directional_slope_properties :
    (∀ (dem : DEMData) (p q : Pt) (orc : ℚ) (m : DirectionalTerrainMetrics),
      calculate_directional_metrics dem p q orc = some m →
      m.elevation_diff_m > 5 → m.is_upslope = true) ∧
    (∀ (s diff : ℚ), -5 ≤ diff → diff ≤ 5 →
      directional_modifier default_directional_slope (some diff) = 1 ∧
      (score_directional_slope default_slope default_directional_slope s (some diff)).points =
        (base_slope_points default_slope s).1) ∧
    (∀ (s : ℚ) (ed : Option ℚ),
      (score_directional_slope default_slope default_directional_slope s ed).points =
        min 20 (pyInt (((base_slope_points default_slope s).1 : ℚ) *
          directional_modifier default_directional_slope ed))) := by
  refine ⟨?_, ?_, fun s ed => score_directional_slope_points_eq s ed⟩
  · intro dem p q orc m hm hdiff
    unfold calculate_directional_metrics at hm
    split at hm
    · obtain rfl := Option.some.inj hm
      exact decide_eq_true hdiff
    · cases hm
  · intro s diff h1 h2
    have hmod : directional_modifier default_directional_slope (some diff) = 1 := by
      simp only [directional_modifier]
      split_ifs with ha hb
      · exfalso
        have ha2 : diff > 5 := ha
        linarith
      · exfalso
        have hb2 : diff < -5 := hb
        linarith
      · rfl
    refine ⟨hmod, ?_⟩
    rw [score_directional_slope_points_eq, hmod, mul_one, pyInt_intCast]
    have hbnd := base_slope_points_bounds s
    omega

/-- A 1×2 DEM giving a change elevation of 100 m and an asset elevation of
40 m. -/
def dem7 : DEMData :=
  { elevation := ⟨[0, 1], [0], fun xi _ => if xi = 0 then some 100 else some 40⟩ }

/-- The metrics `calculate_directional_metrics` produces on `dem7`. -/
def dem7_metrics : DirectionalTerrainMetrics := ⟨100, 40, 60, true, 0⟩

/-- C7 witness: a +60 m pair is upslope; a +3 m difference leaves base
points (7 for a 22° slope) unchanged; a +50 m difference obeys the
floor-and-cap formula. -/
theorem directional_slope_properties_witness :
    dem7_metrics.is_upslope = true ∧
    (score_directional_slope default_slope default_directional_slope 22 (some 3)).points =
      (base_slope_points default_slope 22).1 ∧
    (score_directional_slope default_slope default_directional_slope 22 (some 50)).points =
      min 20 (pyInt (((base_slope_points default_slope 22).1 : ℚ) *
        directional_modifier default_directional_slope (some 50))) :=
  ⟨directional_slope_properties.1 dem7 ⟨0, 0⟩ ⟨1, 0⟩ 0 dem7_metrics
     (by with_unfolding_all rfl) (by norm_num [dem7_metrics]),
   (directional_slope_properties.2.1 22 3 (by norm_num) (by norm_num)).2,
   directional_slope_properties.2.2 22 (some 50)⟩

/-- Inversion of the per-asset loop body: a kept asset is within the
distance budget and is not an overhead-line line geometry. -/
theorem process_asset_some_inv (dist : Geometry → ℚ)
    (metrics : Geometry → Option DirectionalTerrainMetrics) (maxd : ℚ)
    (asset : AssetRecord) (r : ProximityResult)
    (h : process_asset dist metrics maxd asset = some r) :
    r.distance_meters ≤ maxd ∧
    ¬((r.asset_geometry.geom_type = GeomType.lineString ∨
       r.asset_geometry.geom_type = GeomType.multiLineString) ∧
      r.asset_type_name ∈ OVERHEAD_LINE_TYPES) := by
  simp only [process_asset] at h
  split at h
  · exact absurd h (by simp)
  next g hg =>
    by_cases hskip : (g.geom_type = GeomType.lineString ∨
        g.geom_type = GeomType.multiLineString) ∧
        in_overhead_line_types asset.assetTypeName = true
    · rw [if_pos hskip] at h
      exact absurd h (by simp)
    rw [if_neg hskip] at h
    by_cases hbounds : g.minx < -180 ∨ g.maxx > 180 ∨ g.miny < -90 ∨ g.maxy > 90
    · rw [if_pos hbounds] at h
      exact absurd h (by simp)
    rw [if_neg hbounds] at h
    by_cases hdist : dist g ≤ maxd
    · rw [if_pos hdist] at h
      obtain rfl := Option.some.inj h
      refine ⟨hdist, ?_⟩
      rintro ⟨hline, hmem⟩
      have hmem2 : asset.assetTypeName.getD "Unknown" ∈ OVERHEAD_LINE_TYPES := hmem
      apply hskip
      refine ⟨hline, ?_⟩
      rcases ht : asset.assetTypeName with _ | t
      · rw [ht] at hmem2
        simp [OVERHEAD_LINE_TYPES] at hmem2
      · rw [ht] at hmem2
        simp only [Option.getD_some, OVERHEAD_LINE_TYPES, List.mem_singleton] at hmem2
        rw [hmem2]
        rfl
    · rw [if_neg hdist] at h
      exact absurd h (by simp)

/-- C8: every result of `find_nearby_assets` is within `max_distance_m`,
the list is sorted ascending by `distance_meters`, and no result is a line
geometry of an overhead-line asset type. -/
theorem find_nearby_assets_post (dist : Geometry → ℚ)
    (metrics : Geometry → Option DirectionalTerrainMetrics)
    (assets : List AssetRecord) (maxd : ℚ) :
    (∀ r ∈ find_nearby_assets dist metrics assets maxd,
      r.distance_meters ≤ maxd ∧
      ¬((r.asset_geometry.geom_type = GeomType.lineString ∨
         r.asset_geometry.geom_type = GeomType.multiLineString) ∧
        r.asset_type_name ∈ OVERHEAD_LINE_TYPES)) ∧
    List.Sorted distLE (find_nearby_assets dist metrics assets maxd) := by
  unfold find_nearby_assets
  split_ifs with he
  · exact ⟨by simp, List.sorted_nil⟩
  · constructor
    · intro r hr
      have hr2 : r ∈ assets.filterMap (process_asset dist metrics maxd) :=
        (List.perm_insertionSort distLE _).mem_iff.mp hr
      obtain ⟨a, _, ha⟩ := List.mem_filterMap.mp hr2
      exact process_asset_some_inv dist metrics maxd a r ha
    · exact List.sorted_insertionSort distLE _

/-- Distance oracle for the C8 witness. -/
def witness_dist : Geometry → ℚ := fun g => g.minx

/-- Terrain oracle for the C8 witness (no DEM). -/
def witness_metrics : Geometry → Option DirectionalTerrainMetrics := fun _ => none

/-- A point-geometry pole and an overhead transmission line. -/
def witness_assets : List AssetRecord :=
  [{ assetId := some "a1", name := some "Pole 1", assetTypeName := some "UtilityPole",
     criticality := some 2, criticalityName := some "High",
     geometry := some ⟨GeomType.point, 50, 10, 50, 10⟩ },
   { assetId := some "a2", name := some "Line 1", assetTypeName := some "TransmissionLine",
     geometry := some ⟨GeomType.lineString, 20, 10, 60, 10⟩ }]

/-- The single result the witness inputs produce (the line is filtered). -/
def witness_result : ProximityResult :=
  { asset_id := "a1", asset_name := "Pole 1", asset_type := 0,
    asset_type_name := "UtilityPole", criticality := 2, criticality_name := "High",
    distance_meters := 50, asset_geometry := ⟨GeomType.point, 50, 10, 50, 10⟩ }

/-- C8 witness: the kept pole is within budget and is not an overhead line. -/
theorem find_nearby_assets_post_witness :
    witness_result.distance_meters ≤ 2500 ∧
    ¬((witness_result.asset_geometry.geom_type = GeomType.lineString ∨
       witness_result.asset_geometry.geom_type = GeomType.multiLineString) ∧
      witness_result.asset_type_name ∈ OVERHEAD_LINE_TYPES) := by
  have hout : find_nearby_assets witness_dist witness_metrics witness_assets 2500 =
      [witness_result] := by
    with_unfolding_all rfl
  refine (find_nearby_assets_post witness_dist witness_metrics witness_assets 2500).1
    witness_result ?_
  rw [hout]
  exact List.mem_singleton.mpr rfl

/-- A 2×2 DEM over [0,1]×[0,1] with uniform 100 m elevation. -/
def dem9 : DEMData := { elevation := ⟨[0, 1], [0, 1], fun _ _ => some 100⟩ }

/-- C9: for the point (50, 50), which lies strictly beyond every grid
coordinate of `dem9`, `sample_terrain_at_point` returns terrain data
sampled from the nearest edge cell instead of null — the nearest-neighbour
selection has no tolerance, so the out-of-bounds branch is unreachable. -/
theorem sample_terrain_out_of_bounds :
    dem9.elevation.xs.all (fun c => decide (c < 50)) = true ∧
    dem9.elevation.ys.all (fun c => decide (c < 50)) = true ∧
    sample_terrain_at_point dem9 ⟨50, 50⟩ = some ⟨0, 0, 100⟩ :=
  ⟨rfl, rfl, by with_unfolding_all rfl⟩

/-- The override the scoring tests use for a second, customized scorer. -/
def custom_override : OverrideConfig :=
  ⟨[("distance",
     { max_points := some 50,
       thresholds := some [⟨200, 50, "CUSTOM_CLOSE"⟩, ⟨1000, 25, "CUSTOM_MID"⟩] })]⟩

/-- The first, default-configured scorer. -/
def scorer_one : ScorerObj := (riskScorer_init none initial_heap).1

/-- The heap after the first scorer is constructed. -/
def heap_after_one : Heap := (riskScorer_init none initial_heap).2

/-- The heap after a second scorer is constructed with the override:
`_merge_config` mutates the nested dict shared through the shallow copy. -/
def heap_after_two : Heap := (riskScorer_init (some custom_override) heap_after_one).2

/-- C10: constructing the second scorer rewrites the first scorer's distance
thresholds (and the module-level `DEFAULT_SCORING` cell at address 0): the
same call on the same first scorer returns 21 points before and 50 after. -/
theorem scorer_config_aliasing :
    (scorer_score_distance scorer_one heap_after_one 100).points = 21 ∧
    (scorer_score_distance scorer_one heap_after_two 100).points = 50 ∧
    (score_distance (heap_after_two 0) 100).points = 50 :=
  ⟨by with_unfolding_all rfl, by with_unfolding_all rfl, by with_unfolding_all rfl⟩

end GeoRisk
